import Mathlib

/-!
# Verification of the reasoning-trace optimizer

Shallow embedding of the `reasoning_trace_optimizer` Python package
(`models.py`, `analyzer.py`, `optimizer.py`, `loop.py`, `capture.py`).

Modelling conventions:
* Python `float` is modelled as `ℚ` (the code performs only field
  arithmetic and comparisons on scores and thresholds).
* Python `str` is `String`; `None`-able fields are `Option`s; Python
  truthiness of `bool | None` fields is `pyTruthy`.
* Timestamps (`started_at`, `completed_at`, `timestamp`) are omitted:
  no analysed code path reads them.
* Calls to the external model provider and to the user-supplied tool
  executor are modelled as oracle functions indexed by the call position
  (turn index / iteration index / executor-call counter), which captures
  an arbitrary, possibly stateful, external collaborator.
* The regular expressions used by the fallback parsers are embedded
  directly as executable scanners over `List Char` with Python
  `re.search` semantics (leftmost match position, greedy quantifiers);
  the character classes `\s` and `\d` are modelled by their ASCII
  members, which is exact for every input considered here.
-/

namespace RTO

/- Allow the elaborator to evaluate rational arithmetic when checking
concrete runs by `decide` (these Batteries definitions are marked
irreducible only to keep `simp` from unfolding them accidentally). -/
attribute [local semireducible] Rat.mul Rat.add Rat.sub Rat.inv Rat.ofScientific

/-- Python truthiness of a `bool | None` field. -/
def pyTruthy : Option Bool → Bool
  | some b => b
  | none => false

/-! ## Data model (`models.py`) -/

/-- `models.PatternType`. -/
inductive PatternType where
  | context_degradation | tool_confusion | instruction_drift | hallucination
  | incomplete_reasoning | tool_misuse | goal_abandonment | circular_reasoning
  | premature_conclusion | missing_validation
  deriving DecidableEq, Repr

/-- `models.Severity`. -/
inductive Severity where
  | low | medium | high | critical
  deriving DecidableEq, Repr

/-- `models.ThinkingBlock` (timestamp and token_count omitted; unread). -/
structure ThinkingBlock where
  content : String
  turn_index : Nat
  signature : Option String := none
  preceding_tool_call : Option String := none
  preceding_tool_result : Option String := none
  following_action : Option String := none
  deriving DecidableEq, Repr

/-- `models.ToolCall`.  The `input` dict is modelled as an opaque string
(no analysed code path inspects its structure). -/
structure ToolCall where
  id : String
  name : String
  input : String
  turn_index : Nat
  result : Option String := none
  success : Option Bool := none
  error : Option String := none
  deriving DecidableEq, Repr

/-- `models.ReasoningTrace` (timestamps omitted). -/
structure ReasoningTrace where
  session_id : String
  task : String
  system_prompt : String
  thinking_blocks : List ThinkingBlock := []
  tool_calls : List ToolCall := []
  final_response : Option String := none
  model : String := "MiniMax-M2.1"
  total_turns : Nat := 0
  total_tokens : Nat := 0
  success : Option Bool := none
  error : Option String := none
  deriving DecidableEq, Repr

/-- `models.Pattern`. -/
structure Pattern where
  type : PatternType
  severity : Severity
  description : String
  evidence : List String
  turn_indices : List Nat
  suggestion : String
  confidence : ℚ
  deriving DecidableEq, Repr

/-- `models.AnalysisResult`. -/
structure AnalysisResult where
  trace_id : String
  patterns : List Pattern := []
  reasoning_clarity : ℚ := 0
  goal_adherence : ℚ := 0
  tool_usage_quality : ℚ := 0
  error_recovery : ℚ := 0
  overall_score : ℚ := 0
  strengths : List String := []
  weaknesses : List String := []
  recommendations : List String := []
  analyzer_model : String := "MiniMax-M2.1"
  analyzer_thinking : String := ""
  deriving DecidableEq, Repr

/-- `models.PromptDiff`. -/
structure PromptDiff where
  section_ : String
  original : String
  optimized : String
  reason : String
  deriving DecidableEq, Repr

/-- `models.OptimizationResult`. -/
structure OptimizationResult where
  original_prompt : String
  optimized_prompt : String
  diffs : List PromptDiff := []
  predicted_improvement : ℚ := 0
  confidence : ℚ := 0
  optimizer_thinking : String := ""
  key_changes : List String := []
  deriving DecidableEq, Repr

/-- `models.LoopIteration`. -/
structure LoopIteration where
  iteration : Nat
  trace : ReasoningTrace
  analysis : AnalysisResult
  optimization : Option OptimizationResult
  task_completed : Bool := false
  error_count : Nat := 0
  token_usage : Nat := 0
  deriving DecidableEq, Repr

/-- `models.LoopResult`. -/
structure LoopResult where
  task : String
  iterations : List LoopIteration := []
  final_prompt : String := ""
  converged : Bool := false
  total_iterations : Nat := 0
  initial_score : ℚ := 0
  final_score : ℚ := 0
  improvement_percentage : ℚ := 0
  generated_skill_path : Option String := none
  deriving DecidableEq, Repr

/-! ## String-scanning machinery

Executable embedding of the `re` probes and `str` operations used by the
two fallback parsers.  Semantics follow CPython: `re.search` returns the
match at the leftmost starting position, `+`/`*` are greedy, `str.strip`
removes leading and trailing whitespace, `str.replace` rewrites
left-to-right without overlap. -/

/-- Python `\s` (ASCII part: space, tab, newline, CR, VT, FF). -/
def isPySpace (c : Char) : Bool :=
  c == ' ' || c == '\t' || c == '\n' || c == '\r' ||
  c == Char.ofNat 11 || c == Char.ofNat 12

/-- Case-insensitive literal match; returns the rest of the input. -/
def matchLitCI : List Char → List Char → Option (List Char)
  | [], s => some s
  | _ :: _, [] => none
  | c :: cs, d :: ds => if c.toLower == d.toLower then matchLitCI cs ds else none

/-- Exact literal match; returns the rest of the input. -/
def matchLitEx : List Char → List Char → Option (List Char)
  | [], s => some s
  | _ :: _, [] => none
  | c :: cs, d :: ds => if c == d then matchLitEx cs ds else none

/-- Greedy one-or-more character-class match; returns the rest. -/
def matchClassPlus (p : Char → Bool) : List Char → Option (List Char)
  | [] => none
  | c :: t => if p c then some (t.dropWhile p) else none

/-- Numeric value of a digit run (`int` on the captured group). -/
def digitsToNat (ds : List Char) : Nat :=
  ds.foldl (fun n c => n * 10 + (c.toNat - 48)) 0

/-- Greedy `(\d+)` capture: the digit run and its numeric value. -/
def captureDigits (s : List Char) : Option (Nat × List Char) :=
  let ds := s.takeWhile Char.isDigit
  if ds.isEmpty then none else some (digitsToNat ds, s.dropWhile Char.isDigit)

/-- `re.search` driver: try the matcher at each position, left to right. -/
def searchFirst {α : Type} (m : List Char → Option α) : List Char → Option α
  | [] => m []
  | l@(_ :: t) =>
    match m l with
    | some r => some r
    | none => searchFirst m t

/-- Leftmost index at which `pat` occurs (`str.find` / `in`). -/
def findIdx (pat : List Char) : List Char → Option Nat
  | [] => if pat.isEmpty then some 0 else none
  | l@(_ :: t) =>
    if pat.isPrefixOf l then some 0
    else match findIdx pat t with
      | some n => some (n + 1)
      | none => none

/-- Python `str.strip()`. -/
def stripCh (s : List Char) : List Char :=
  ((s.dropWhile isPySpace).reverse.dropWhile isPySpace).reverse

/-! ## Analyzer fallback parsing (`analyzer.py`) -/

/-- Probe for `analyzer.py` pattern `overall["\s:]+(\d+)` (IGNORECASE),
anchored at the current position. -/
def probeOverall (s : List Char) : Option Nat := do
  let r1 ← matchLitCI "overall".toList s
  let r2 ← matchClassPlus (fun c => c == '"' || c == ':' || isPySpace c) r1
  let (n, _) ← captureDigits r2
  pure n

/-- Probe for `Overall Score[:\s]+(\d+)` (IGNORECASE). -/
def probeOverallScore (s : List Char) : Option Nat := do
  let r1 ← matchLitCI "Overall Score".toList s
  let r2 ← matchClassPlus (fun c => c == ':' || isPySpace c) r1
  let (n, _) ← captureDigits r2
  pure n

/-- Probe for `"overall"[:\s]+(\d+)` (IGNORECASE). -/
def probeQuotedOverall (s : List Char) : Option Nat := do
  let r1 ← matchLitCI "\"overall\"".toList s
  let r2 ← matchClassPlus (fun c => c == ':' || isPySpace c) r1
  let (n, _) ← captureDigits r2
  pure n

/-- Probe for `Score[:\s]+(\d+)/100` (IGNORECASE). -/
def probeScoreOutOf100 (s : List Char) : Option Nat := do
  let r1 ← matchLitCI "Score".toList s
  let r2 ← matchClassPlus (fun c => c == ':' || isPySpace c) r1
  let (n, r3) ← captureDigits r2
  let _ ← matchLitCI "/100".toList r3
  pure n

/-- The `score_patterns` loop of `TraceAnalyzer._fallback_parse_analysis`:
the four regex probes are tried in list order; the first one that
matches anywhere in the text wins. -/
def fallbackScoreProbes (text : List Char) : Option Nat :=
  match searchFirst probeOverall text with
  | some n => some n
  | none =>
    match searchFirst probeOverallScore text with
    | some n => some n
    | none =>
      match searchFirst probeQuotedOverall text with
      | some n => some n
      | none => searchFirst probeScoreOutOf100 text

/-- `TraceAnalyzer._fallback_parse_analysis(response_text, trace_id, error_msg)`.
A matched value is clamped with `min(100, max(0, int(...)))`; a score that
is still `0` afterwards (no match, or a recovered literal `0`) is replaced
by the neutral default `50`. -/
def fallback_parse_analysis (response_text trace_id error_msg : String) :
    AnalysisResult :=
  let score : ℚ :=
    match fallbackScoreProbes response_text.toList with
    | some n => min 100 (max 0 (n : ℚ))
    | none => 0
  let score := if score = 0 then 50 else score
  { trace_id := trace_id
    overall_score := score
    recommendations :=
      ["Analysis parsing failed (" ++ error_msg ++ "). Using fallback extraction.",
       "Consider re-running analysis if results seem inconsistent."]
    weaknesses := ["JSON parsing failed - analysis may be incomplete"] }

/-! ## Optimizer fallback parsing (`optimizer.py`) -/

/-- Python `.replace('\\n', '\n')`: left-to-right, non-overlapping. -/
def unescapeNL : List Char → List Char
  | [] => []
  | '\\' :: 'n' :: t => '\n' :: unescapeNL t
  | c :: t => c :: unescapeNL t

/-- Python `.replace('\\"', '"')`: left-to-right, non-overlapping. -/
def unescapeQuote : List Char → List Char
  | [] => []
  | '\\' :: '"' :: t => '"' :: unescapeQuote t
  | c :: t => c :: unescapeQuote t

/-- Strategy 1 of `PromptOptimizer._fallback_extract_prompt`: the regex
`"optimized_prompt"\s*:\s*"([^"]+)"` anchored at the current position
(DOTALL only affects `.`, which the pattern does not use). -/
def probeOptimizedPrompt (s : List Char) : Option (List Char) := do
  let r1 ← matchLitEx "\"optimized_prompt\"".toList s
  let r2 := r1.dropWhile isPySpace
  match r2 with
  | ':' :: r3 =>
    let r4 := r3.dropWhile isPySpace
    match r4 with
    | '"' :: r5 =>
      let cap := r5.takeWhile (fun c => c != '"')
      if cap.isEmpty then none
      else
        match r5.dropWhile (fun c => c != '"') with
        | '"' :: _ => some cap
        | _ => none
    | _ => none
  | _ => none

/-- One entry of strategy 2's marker scan: find `startM`, strip the rest,
cut at `endM`, strip, and accept only if longer than 50 characters. -/
def tryMarker (startM endM : List Char) (text : List Char) : Option (List Char) :=
  match findIdx startM text with
  | none => none
  | some i =>
    let remaining := stripCh (text.drop (i + startM.length))
    match findIdx endM remaining with
    | none => none
    | some j =>
      let extracted := stripCh (remaining.take j)
      if 50 < extracted.length then some extracted else none

/-- After an opening fence and optional language word: require a newline,
then a lazy `(.*?)` capture up to the next triple backtick. -/
def fenceTail (r : List Char) : Option (List Char × List Char) :=
  match r with
  | '\n' :: r2 =>
    match findIdx "\x60\x60\x60".toList r2 with
    | none => none
    | some k => some (r2.take k, r2.drop (k + 3))
  | _ => none

/-- Strategy 3's regex at one position:
triple backtick, optional `text`/`markdown` (regex alternation order,
with backtracking), newline, lazy body, closing triple backtick.
Returns the captured body and the rest of the input after the match. -/
def fenceAt (s : List Char) : Option (List Char × List Char) :=
  if ("\x60\x60\x60".toList).isPrefixOf s then
    let r := s.drop 3
    match (if ("text".toList).isPrefixOf r then fenceTail (r.drop 4) else none) with
    | some res => some res
    | none =>
      match (if ("markdown".toList).isPrefixOf r then fenceTail (r.drop 8) else none) with
      | some res => some res
      | none => fenceTail r
  else none

/-- `re.findall` driver for strategy 3 (fuel = input length; every match
consumes at least one character, so the fuel never runs out early). -/
def findallFences : Nat → List Char → List (List Char)
  | 0, _ => []
  | _ + 1, [] => []
  | fuel + 1, l@(_ :: t) =>
    match fenceAt l with
    | some (cap, rest) => cap :: findallFences fuel rest
    | none => findallFences fuel t

/-- `PromptOptimizer._fallback_extract_prompt(response_text)`:
the three-strategy cascade. -/
def fallback_extract_prompt (response_text : String) : Option String :=
  let text := response_text.toList
  match searchFirst probeOptimizedPrompt text with
  | some cap => some (unescapeQuote (unescapeNL cap)).asString
  | none =>
    match tryMarker "## Optimized Prompt".toList "##".toList text with
    | some e => some e.asString
    | none =>
      match tryMarker "**Optimized Prompt**".toList "**".toList text with
      | some e => some e.asString
      | none =>
        match tryMarker "OPTIMIZED PROMPT:".toList "\n\n".toList text with
        | some e => some e.asString
        | none =>
          match tryMarker "Here is the improved prompt:".toList "\n\n---".toList text with
          | some e => some e.asString
          | none =>
            match (findallFences text.length text).find?
                (fun b => !((stripCh b).headD (Char.ofNat 0) == Char.ofNat 123) &&
                          100 < b.length) with
            | some b => some (stripCh b).asString
            | none => none

/-- The `except` branch of `PromptOptimizer._parse_optimization_response`:
`err_name` is `type(e).__name__`.  The result was initialised with
`optimized_prompt = original_prompt`; a fallback extraction is adopted
only when it is truthy (non-empty) and differs from the original. -/
def parse_optimization_onFailure (response_text original_prompt err_name : String) :
    OptimizationResult :=
  let base : OptimizationResult :=
    { original_prompt := original_prompt, optimized_prompt := original_prompt }
  match fallback_extract_prompt response_text with
  | some e =>
    if e ≠ "" ∧ e ≠ original_prompt then
      { base with
        optimized_prompt := e
        key_changes :=
          ["JSON parsing failed (" ++ err_name ++ "), extracted prompt via fallback"]
        confidence := 3 / 10 }
    else
      { base with
        key_changes :=
          ["Optimization parsing failed (" ++ err_name ++ ") - using original prompt"] }
  | none =>
    { base with
      key_changes :=
        ["Optimization parsing failed (" ++ err_name ++ ") - using original prompt"] }

/-! ## Loop controller (`loop.py`) -/

/-- `loop.LoopConfig` (floats as `ℚ`; `0.4 = 2/5`, `0.2 = 1/5`). -/
structure LoopConfig where
  max_iterations : Nat := 5
  convergence_threshold : ℚ := 3
  min_score_threshold : ℚ := 75
  regression_threshold : ℚ := 8
  success_weight : ℚ := 2 / 5
  score_weight : ℚ := 2 / 5
  error_weight : ℚ := 1 / 5
  use_best_prompt : Bool := true
  max_prompt_growth : ℚ := 5
  save_artifacts : Bool := true
  artifacts_dir : String := "./optimization_artifacts"
  verbose : Bool := true
  deriving Repr

/-- The three model-backed collaborators of `OptimizationLoop.run`,
modelled as oracles indexed by the (0-based) iteration at which the
call is made; this captures a stochastic external model. -/
structure LoopOracle where
  capture : Nat → String → ReasoningTrace
  analyze : Nat → ReasoningTrace → AnalysisResult
  optimize : Nat → String → AnalysisResult → ReasoningTrace → OptimizationResult

/-- `OptimizationLoop._calculate_score(trace, analysis)`. -/
def calculate_score (cfg : LoopConfig) (trace : ReasoningTrace)
    (analysis : AnalysisResult) : ℚ :=
  let success_score : ℚ := if pyTruthy trace.success then 100 else 0
  let error_penalty : ℚ :=
    ((trace.tool_calls.filter (fun tc => ! pyTruthy tc.success)).length : ℚ) * 10
  let weighted :=
    success_score * cfg.success_weight
      + analysis.overall_score * cfg.score_weight
      - error_penalty * cfg.error_weight
  max 0 (min 100 weighted)

/-- `OptimizationLoop._check_convergence`; `best_score` feeds only the
human-readable reason string.  The max-iterations test is the Python
integer comparison `iteration >= max_iterations - 1`. -/
def check_convergence (cfg : LoopConfig) (iteration : Nat) (score prev_score : ℚ)
    (best_score : ℚ) (consecutive_regressions : Nat) : Bool × String :=
  if cfg.min_score_threshold ≤ score then
    (false, "Score " ++ toString score ++ " >= threshold " ++ toString cfg.min_score_threshold)
  else if 2 ≤ consecutive_regressions then
    (false, "Consecutive regressions detected (best was " ++ toString best_score ++ ")")
  else if 0 < iteration ∧ |score - prev_score| < cfg.convergence_threshold ∧
      prev_score ≤ score then
    (false, "Converged (improvement < threshold)")
  else if (cfg.max_iterations : Int) - 1 ≤ (iteration : Int) then
    (false, "Reached max iterations")
  else (true, "")

/-- Loop-local mutable state of `OptimizationLoop.run`. -/
structure LoopState where
  current_prompt : String
  best_score : ℚ
  best_prompt : String
  best_iteration : Nat
  consecutive_regressions : Nat
  result : LoopResult
  deriving Repr

/-- The trace captured by iteration `i` (step 1 of the loop body). -/
def stepTrace (o : LoopOracle) (i : Nat) (st : LoopState) : ReasoningTrace :=
  o.capture i st.current_prompt

/-- The analysis produced in iteration `i` (step 2 of the loop body). -/
def stepAnalysis (o : LoopOracle) (i : Nat) (st : LoopState) : AnalysisResult :=
  o.analyze i (stepTrace o i st)

/-- The composite `iteration_score` of iteration `i`. -/
def stepScore (cfg : LoopConfig) (o : LoopOracle) (i : Nat) (st : LoopState) : ℚ :=
  calculate_score cfg (stepTrace o i st) (stepAnalysis o i st)

/-- `result.iterations[-1].analysis.overall_score if result.iterations else 0`:
the `prev_score` argument of the convergence check. -/
def stepPrev (st : LoopState) : ℚ :=
  match st.result.iterations.getLast? with
  | some it => it.analysis.overall_score
  | none => 0

/-- The `should_continue` decision of iteration `i` (the `best_score`
argument reflects the update performed when `i == 0`). -/
def stepShouldContinue (cfg : LoopConfig) (o : LoopOracle) (i : Nat)
    (st : LoopState) : Bool :=
  (check_convergence cfg i (stepScore cfg o i st) (stepPrev st)
    (if i = 0 then stepScore cfg o i st else st.best_score)
    st.consecutive_regressions).1

/-- One pass of the `for i in range(max_iterations)` body of
`OptimizationLoop.run`: capture, analyze, score, initial-score
bookkeeping, convergence check, optimization with the prompt-growth cap,
best tracking, iteration record.  Returns the updated state and
`should_continue`; the caller breaks when the latter is `false`
(the body already set `converged`). -/
def loopStep (cfg : LoopConfig) (o : LoopOracle) (initial_prompt : String)
    (i : Nat) (st : LoopState) : LoopState × Bool :=
  let trace := stepTrace o i st
  let analysis := stepAnalysis o i st
  let score := stepScore cfg o i st
  let res0 := if i = 0 then { st.result with initial_score := score } else st.result
  let bs0 := if i = 0 then score else st.best_score
  let bp0 := if i = 0 then st.current_prompt else st.best_prompt
  let should_continue := stepShouldContinue cfg o i st
  let optimization : Option OptimizationResult :=
    if should_continue then some (o.optimize i st.current_prompt analysis trace)
    else none
  let current1 : String :=
    match optimization with
    | some opt =>
      if (initial_prompt.length : ℚ) * cfg.max_prompt_growth <
          (opt.optimized_prompt.length : ℚ) then
        st.current_prompt
      else opt.optimized_prompt
    | none => st.current_prompt
  let best3 : ℚ × String × Nat × Nat :=
    if bs0 < score then
      (score,
       (match optimization with
        | some opt =>
          if opt.optimized_prompt ≠ initial_prompt then opt.optimized_prompt
          else current1
        | none => current1),
       i + 1, 0)
    else if score < bs0 - cfg.regression_threshold then
      (bs0, bp0, st.best_iteration, st.consecutive_regressions + 1)
    else
      (bs0, bp0, st.best_iteration, st.consecutive_regressions)
  let iter : LoopIteration :=
    { iteration := i + 1
      trace := trace
      analysis := analysis
      optimization := optimization
      task_completed := pyTruthy trace.success
      error_count := (trace.tool_calls.filter (fun tc => ! pyTruthy tc.success)).length
      token_usage := trace.total_tokens }
  let res1 := { res0 with iterations := res0.iterations ++ [iter] }
  let res2 := if should_continue then res1 else { res1 with converged := true }
  ({ current_prompt := current1
     best_score := best3.1
     best_prompt := best3.2.1
     best_iteration := best3.2.2.1
     consecutive_regressions := best3.2.2.2
     result := res2 }, should_continue)

/-- The iteration loop: `fuel` remaining passes starting at index `i`
(invoked with `i = 0`, `fuel = max_iterations`); stops early when the
body reports `should_continue = false`. -/
def runAux (cfg : LoopConfig) (o : LoopOracle) (initial_prompt : String) :
    Nat → Nat → LoopState → LoopState
  | _, 0, st => st
  | i, fuel + 1, st =>
    let r := loopStep cfg o initial_prompt i st
    if r.2 then runAux cfg o initial_prompt (i + 1) fuel r.1 else r.1

/-- The finalization block of `OptimizationLoop.run` (best-prompt
selection, `total_iterations`, `improvement_percentage`).  When
`use_best_prompt` holds and no iteration ran, CPython raises an
`IndexError`; every theorem below therefore assumes `1 ≤ max_iterations`,
under which `iterations` is non-empty. -/
def finalizeLoop (cfg : LoopConfig) (st : LoopState) : LoopResult :=
  let res := st.result
  let lastOverall : ℚ :=
    match res.iterations.getLast? with
    | some it => it.analysis.overall_score
    | none => 0
  let res :=
    if cfg.use_best_prompt = true ∧ lastOverall < st.best_score then
      { res with final_prompt := st.best_prompt, final_score := st.best_score }
    else
      { res with final_prompt := st.current_prompt, final_score := lastOverall }
  let res := { res with total_iterations := res.iterations.length }
  { res with
    improvement_percentage :=
      (res.final_score - res.initial_score) / max res.initial_score 1 * 100 }

/-- Initial loop state of `OptimizationLoop.run`:
`result = LoopResult(task, final_prompt=initial_prompt)`,
`best_score = 0.0`, `best_prompt = initial_prompt`. -/
def initLoopState (task initial_prompt : String) : LoopState :=
  { current_prompt := initial_prompt
    best_score := 0
    best_prompt := initial_prompt
    best_iteration := 0
    consecutive_regressions := 0
    result := { task := task, final_prompt := initial_prompt } }

/-- `OptimizationLoop.run(task, initial_prompt, ...)`. -/
def runLoop (cfg : LoopConfig) (o : LoopOracle) (task initial_prompt : String) :
    LoopResult :=
  finalizeLoop cfg
    (runAux cfg o initial_prompt 0 cfg.max_iterations (initLoopState task initial_prompt))

/-! ## Capture (`capture.py`)

The provider is an oracle mapping the turn index to the assistant
response (the real call also sends the accumulated message history; the
history determines the response only through the provider, which the
oracle abstracts, so the history itself is not tracked).  The tool
executor is an oracle over the executor-call counter, tool name and
input; `Except.error` models a raised exception. -/

/-- One typed content block of a provider response. -/
inductive ContentBlock where
  | thinking (content : String) (signature : Option String)
  | text (t : String)
  | tool_use (id name input : String)
  deriving DecidableEq, Repr

/-- A provider response: content blocks plus the usage report. -/
structure ModelResponse where
  content : List ContentBlock
  input_tokens : Nat := 0
  output_tokens : Nat := 0
  deriving Repr

/-- The external collaborators of `TraceCapture.run`. -/
structure CaptureOracle where
  respond : Nat → ModelResponse
  executor : Option (Nat → String → String → Except String String)

/-- The response's `text` blocks, in emission order. -/
def responseTexts (resp : ModelResponse) : List String :=
  resp.content.filterMap fun b =>
    match b with
    | .text t => some t
    | _ => none

/-- The response's `tool_use` blocks, in emission order. -/
def responseTools (resp : ModelResponse) : List (String × String × String) :=
  resp.content.filterMap fun b =>
    match b with
    | .tool_use i n inp => some (i, n, inp)
    | _ => none

/-- The response's `thinking` blocks as `ThinkingBlock`s tagged with the
current turn. -/
def responseThinking (resp : ModelResponse) (turn : Nat) : List ThinkingBlock :=
  resp.content.filterMap fun b =>
    match b with
    | .thinking c sig => some { content := c, turn_index := turn, signature := sig }
    | _ => none

/-- Does the response contain a `tool_use` block? -/
def hasToolUse (resp : ModelResponse) : Bool :=
  resp.content.any fun b =>
    match b with
    | .tool_use _ _ _ => true
    | _ => false

/-- `TraceCapture._process_response`: append the thinking blocks to the
trace, accumulate tokens, and report the text and tool-use bins. -/
def process_response (resp : ModelResponse) (turn : Nat) (tr : ReasoningTrace) :
    ReasoningTrace × List String × List (String × String × String) :=
  ({ tr with
      thinking_blocks := tr.thinking_blocks ++ responseThinking resp turn
      total_tokens := tr.total_tokens + resp.input_tokens + resp.output_tokens },
   responseTexts resp, responseTools resp)

/-- `TraceCapture._execute_tool`: run the executor (or the mock when no
executor was supplied), record the `ToolCall`, back-link the last
thinking block of the same turn, and return the result string sent back
to the model.  A raised exception (`Except.error e`) is captured, never
propagated: the result becomes `"Error: " ++ e`. -/
def execute_tool (executor : Option (Nat → String → String → Except String String))
    (callIdx turn : Nat) (blockId blockName blockInput : String)
    (tr : ReasoningTrace) : String × ReasoningTrace :=
  let outcome : String × Bool × Option String :=
    match executor with
    | some ex =>
      match ex callIdx blockName blockInput with
      | Except.ok r => (r, true, none)
      | Except.error e => ("Error: " ++ e, false, some e)
    | none => ("[Mock result for " ++ blockName ++ "]", true, none)
  let tc : ToolCall :=
    { id := blockId, name := blockName, input := blockInput, turn_index := turn
      result := some outcome.1, success := some outcome.2.1, error := outcome.2.2 }
  let tbs := tr.thinking_blocks
  let tbs2 :=
    match tbs.getLast? with
    | some lb =>
      if lb.turn_index = turn then
        tbs.dropLast ++ [{ lb with following_action := some ("tool_use:" ++ blockName) }]
      else tbs
    | none => tbs
  (outcome.1, { tr with tool_calls := tr.tool_calls ++ [tc], thinking_blocks := tbs2 })

/-- Execute the turn's tool-use blocks in emission order, threading the
executor-call counter. -/
def executeTools (executor : Option (Nat → String → String → Except String String))
    (turn : Nat) : List (String × String × String) → Nat → ReasoningTrace →
    ReasoningTrace × Nat
  | [], ci, tr => (tr, ci)
  | (bid, bname, binp) :: rest, ci, tr =>
    let r := execute_tool executor ci turn bid bname binp tr
    executeTools executor turn rest (ci + 1) r.2

/-- The `while turn < max_turns` loop of `TraceCapture.run`:
`fuel = max_turns - turn` remaining turns.  Returns the trace and the
final value of `turn` (unchanged by a break; `max_turns` on exhaustion). -/
def captureGo (o : CaptureOracle) : Nat → Nat → Nat → ReasoningTrace →
    ReasoningTrace × Nat
  | 0, turn, _, tr => (tr, turn)
  | fuel + 1, turn, ci, tr =>
    let resp := o.respond turn
    let pr := process_response resp turn tr
    if pr.2.2.isEmpty then
      ({ pr.1 with final_response := pr.2.1.head?, success := some true }, turn)
    else
      let ex := executeTools o.executor turn pr.2.2 ci pr.1
      captureGo o fuel (turn + 1) ex.2 { ex.1 with total_turns := turn + 1 }

/-- `TraceCapture.run(task, system_prompt, tools, tool_executor, max_turns)`.
The `uuid4` session id is a parameter.  The surrounding `try/except`
(provider transport failures) is not exercised because the provider
oracle is total; executor exceptions are handled inside
`execute_tool`. -/
def capture_run (o : CaptureOracle) (sessionId task system_prompt : String)
    (max_turns : Nat) : ReasoningTrace :=
  let tr0 : ReasoningTrace :=
    { session_id := sessionId, task := task, system_prompt := system_prompt }
  let r := captureGo o max_turns 0 0 tr0
  if max_turns ≤ r.2 ∧ ¬ pyTruthy r.1.success then
    { r.1 with
        success := some false
        error := some ("Reached maximum turns (" ++ toString max_turns ++
                       ") without completion") }
  else r.1

/-! ## Spec-side composite formula

`composite_spec` transcribes the specification's words for the
per-iteration composite score (`clamp(0,100, successWeight·(100 if
trace.success else 0) + scoreWeight·analysis.overall −
errorWeight·10·#failedToolCalls)`), to be compared with the
implementation's `calculate_score`. -/

/-- `clamp(lo, hi, x)` as written in the specification. -/
def clamp (lo hi x : ℚ) : ℚ := max lo (min hi x)

/-- Number of tool calls whose success flag is not `true` (the
specification's `#failedToolCalls`). -/
def failedToolCallCount (trace : ReasoningTrace) : Nat :=
  (trace.tool_calls.filter (fun tc => decide (tc.success ≠ some true))).length

/-- The composite score exactly as the specification states it. -/
def composite_spec (cfg : LoopConfig) (trace : ReasoningTrace)
    (analysis : AnalysisResult) : ℚ :=
  clamp 0 100
    (cfg.success_weight * (if pyTruthy trace.success then 100 else 0)
      + cfg.score_weight * analysis.overall_score
      - cfg.error_weight * 10 * (failedToolCallCount trace : ℚ))

/-! ## Concrete instances used by counterexamples and witnesses -/

/-- The default `LoopConfig()` of `loop.py`. -/
def cfgDefault : LoopConfig := {}

/-- A run in which every iteration succeeds with analyzer overall 50 and
the optimizer returns the prompt unchanged: every composite is
`0.4·100 + 0.4·50 = 60`, while the previous analysis overall seen by the
convergence check is `50`. -/
def steadyOracle : LoopOracle where
  capture := fun _ p =>
    { session_id := "s", task := "t", system_prompt := p, success := some true }
  analyze := fun _ tr => { trace_id := tr.session_id, overall_score := 50 }
  optimize := fun _ p _ _ => { original_prompt := p, optimized_prompt := p }

/-- Three-iteration config for the growth-cap/best-prompt scenario. -/
def cfgThree : LoopConfig := { max_iterations := 3 }

/-- A run whose composites are 40, 60, 4 (overalls 100, 50, 10), where
the optimizer returns the short prompt `"q"` at iteration 0 and the
9-character prompt `"BIGBIGBIG"` (over the growth cap for the 1-character
initial prompt) at iteration 1. -/
def growthOracle : LoopOracle where
  capture := fun i p =>
    { session_id := "s", task := "t", system_prompt := p
      success := if i = 1 then some true else some false }
  analyze := fun i tr =>
    { trace_id := tr.session_id
      overall_score := if i = 0 then 100 else if i = 1 then 50 else 10 }
  optimize := fun i p _ _ =>
    { original_prompt := p
      optimized_prompt := if i = 0 then "q" else "BIGBIGBIG" }

/-- A provider that always asks for one tool call (for the max-turns
scenario), with a mock-free failing executor available for reuse. -/
def loopingCapture : CaptureOracle where
  respond := fun _ =>
    { content := [ContentBlock.thinking "considering" none,
                  ContentBlock.tool_use "call1" "search" "query"]
      input_tokens := 10, output_tokens := 5 }
  executor := some fun _ _ _ => Except.ok "retry"

/-- An executor that always raises (for the exception-capture witness). -/
def raisingExecutor : Nat → String → String → Except String String :=
  fun _ _ _ => Except.error "boom"

/-- A run whose every iteration fails with analyzer overall `0`
(composite `0`), and whose optimizer always returns the 9-character
prompt `"BIGBIGBIG"`. -/
def bigOracle : LoopOracle where
  capture := fun _ p =>
    { session_id := "s", task := "t", system_prompt := p, success := some false }
  analyze := fun _ tr => { trace_id := tr.session_id }
  optimize := fun _ p _ _ => { original_prompt := p, optimized_prompt := "BIGBIGBIG" }

/-- A recorded first iteration with analyzer overall `59` (used as the
previous iteration of a mid-loop state). -/
def witIter : LoopIteration :=
  { iteration := 1
    trace := { session_id := "s", task := "t", system_prompt := "p", success := some true }
    analysis := { trace_id := "s", overall_score := 59 }
    optimization := none }

/-- A mid-loop state after one recorded iteration, with best score 60
and no regressions. -/
def witState : LoopState :=
  { current_prompt := "p", best_score := 60, best_prompt := "p", best_iteration := 1
    consecutive_regressions := 0
    result := { task := "t", final_prompt := "p", iterations := [witIter],
                initial_score := 60 } }

/-! ## Helper lemmas -/

/-- Python `not x` on a `bool | None` field agrees with `x is not True`. -/
lemma pyTruthy_not_eq (x : Option Bool) :
    (! pyTruthy x) = decide (x ≠ some true) := by
  rcases x with - | b
  · rfl
  · cases b <;> rfl

/-- String concatenation is associative. -/
lemma strAppend_assoc (a b c : String) : a ++ b ++ c = a ++ (b ++ c) := by
  apply String.ext
  simp [String.data_append]

/-! ## Claim theorems -/

/-- **C3.** For every trace and analysis, the Loop Controller's
per-iteration composite score equals
`clamp(0,100, successWeight·(100 if trace.success else 0) +
scoreWeight·analysis.overall − errorWeight·10·#failedToolCalls)`,
where a failed tool call is one whose success flag is not `true`. -/
theorem c3_composite_formula (cfg : LoopConfig) (trace : ReasoningTrace)
    (analysis : AnalysisResult) :
    calculate_score cfg trace analysis = composite_spec cfg trace analysis := by
  unfold calculate_score composite_spec clamp failedToolCallCount
  have h : (trace.tool_calls.filter (fun tc => ! pyTruthy tc.success))
      = (trace.tool_calls.filter (fun tc => decide (tc.success ≠ some true))) := by
    apply List.filter_congr
    intro tc _
    exact pyTruthy_not_eq tc.success
  rw [h]
  ring_nf

/-- Closed form of the fallback score: a probe match `n` is clamped to
`[0,100]`; a clamped value of `0` — no match, or a recovered literal
`0` — becomes the neutral default `50`.  (In particular the score is
never `0`, so the zero-score re-check that follows the `except` branch
in `_parse_analysis_response` can never fire on this path.) -/
lemma fallback_overall_formula (text tid err : String) :
    (fallback_parse_analysis text tid err).overall_score =
      match fallbackScoreProbes text.toList with
      | some n => if n = 0 then 50 else ((min 100 n : ℕ) : ℚ)
      | none => 50 := by
  unfold fallback_parse_analysis
  rcases h : fallbackScoreProbes text.toList with - | n
  · norm_num
  · simp only []
    by_cases hn : n = 0
    · subst hn
      norm_num
    · have hmax : max (0:ℚ) (n:ℚ) = (n:ℚ) := max_eq_right (by positivity)
      have h1 : (1:ℚ) ≤ (n:ℚ) := by exact_mod_cast Nat.one_le_iff_ne_zero.mpr hn
      have hmin : min (100:ℚ) (n:ℚ) = ((min 100 n : ℕ) : ℚ) := by push_cast; rfl
      have hne : min (100:ℚ) (max 0 (n:ℚ)) ≠ 0 := by
        rw [hmax]
        have : (1:ℚ) ≤ min 100 (n:ℚ) := le_min (by norm_num) h1
        linarith
      rw [if_neg hne, if_neg hn, hmax, hmin]

/-- **C1 (amended).** For every analyzer response text that fails JSON
extraction, the fallback result's overall score lies in `[1,100]` (so in
`[0,100]` and never exactly `0`); a value recovered by the regex probes
is clamped to `[0,100]` and adopted *unless the clamped value is `0`*,
in which case — as when no probe matches — the score is exactly `50`;
and a diagnostic weakness and fallback notes in the recommendations are
appended.  (The original claim's "a recovered value in `[0,100]` is
adopted" fails for a recovered `0`.) -/
theorem c1_analyzer_fallback_score (text tid err : String) :
    1 ≤ (fallback_parse_analysis text tid err).overall_score ∧
    (fallback_parse_analysis text tid err).overall_score ≤ 100 ∧
    (∀ n, fallbackScoreProbes text.toList = some n →
      (fallback_parse_analysis text tid err).overall_score =
        if n = 0 then 50 else ((min 100 n : ℕ) : ℚ)) ∧
    (fallbackScoreProbes text.toList = none →
      (fallback_parse_analysis text tid err).overall_score = 50) ∧
    (fallback_parse_analysis text tid err).weaknesses ≠ [] ∧
    (fallback_parse_analysis text tid err).recommendations ≠ [] := by
  have hf := fallback_overall_formula text tid err
  refine ⟨?_, ?_, ?_, ?_, ?_, ?_⟩
  · rw [hf]
    rcases h : fallbackScoreProbes text.toList with - | n
    · norm_num
    · simp only []
      by_cases hn : n = 0
      · rw [if_pos hn]; norm_num
      · rw [if_neg hn]
        have : 1 ≤ min 100 n := le_min (by norm_num) (Nat.one_le_iff_ne_zero.mpr hn)
        exact_mod_cast this
  · rw [hf]
    rcases h : fallbackScoreProbes text.toList with - | n
    · norm_num
    · simp only []
      by_cases hn : n = 0
      · rw [if_pos hn]; norm_num
      · rw [if_neg hn]
        have : min 100 n ≤ 100 := min_le_left _ _
        exact_mod_cast this
  · intro n hn
    rw [hf, hn]
  · intro hn
    rw [hf, hn]
  · unfold fallback_parse_analysis
    rcases fallbackScoreProbes text.toList with - | n <;> simp
  · unfold fallback_parse_analysis
    rcases fallbackScoreProbes text.toList with - | n <;> simp

/-- **C1 counterexample.** On the response text `"overall: 0"` the first
regex probe recovers the in-range value `0`, yet the fallback analysis
adopts `50`, not `0`: the claim's "if a regex probe recovers a value in
`[0,100]` that value is adopted" is false (and had it held, it would
contradict the same claim's "never exactly 0"). -/
theorem c1_counterexample :
    fallbackScoreProbes ("overall: 0").toList = some 0 ∧
    (fallback_parse_analysis "overall: 0" "trace" "err").overall_score = 50 ∧
    (50 : ℚ) ≠ 0 := by
  refine ⟨by decide, by decide, by norm_num⟩

/-- **C1 witness.** The amended theorem evaluated at the concrete
response `"Overall Score: 72"`: the second probe recovers `72`, which is
adopted unchanged. -/
theorem c1_witness :
    fallbackScoreProbes ("Overall Score: 72").toList = some 72 ∧
    (fallback_parse_analysis "Overall Score: 72" "trace" "err").overall_score = 72 ∧
    1 ≤ (fallback_parse_analysis "Overall Score: 72" "trace" "err").overall_score ∧
    (fallback_parse_analysis "Overall Score: 72" "trace" "err").overall_score ≤ 100 := by
  have hp : fallbackScoreProbes ("Overall Score: 72").toList = some 72 := by decide
  have h := c1_analyzer_fallback_score "Overall Score: 72" "trace" "err"
  refine ⟨hp, ?_, h.1, h.2.1⟩
  rw [h.2.2.1 72 hp]
  norm_num

/-- **C2 (amended).** On the JSON-parse-failure path of
`_parse_optimization_response`: the optimized prompt is non-empty
whenever the original prompt is non-empty (the fallback only adopts a
truthy extraction, and otherwise returns the original); and whenever no
fallback strategy extracts a non-empty prompt distinct from the
original, the optimized prompt equals the original unchanged and
`key_changes` records the failure.  (The original claim's unconditional
"never empty" fails when the original prompt is itself empty; on this
path the prompt is always a string, never `None`.) -/
theorem c2_optimizer_fallback (text orig err : String) :
    ((orig ≠ "") → (parse_optimization_onFailure text orig err).optimized_prompt ≠ "") ∧
    ((∀ e, fallback_extract_prompt text = some e → e = "" ∨ e = orig) →
      (parse_optimization_onFailure text orig err).optimized_prompt = orig ∧
      (parse_optimization_onFailure text orig err).key_changes =
        ["Optimization parsing failed (" ++ err ++ ") - using original prompt"]) := by
  unfold parse_optimization_onFailure
  rcases hf : fallback_extract_prompt text with - | e
  · exact ⟨fun h => h, fun _ => ⟨rfl, rfl⟩⟩
  · simp only []
    by_cases hc : e ≠ "" ∧ e ≠ orig
    · rw [if_pos hc]
      refine ⟨fun _ => hc.1, fun hall => ?_⟩
      rcases hall e rfl with h1 | h2
      · exact absurd h1 hc.1
      · exact absurd h2 hc.2
    · rw [if_neg hc]
      exact ⟨fun h => h, fun _ => ⟨rfl, rfl⟩⟩

/-- **C2 counterexample.** For the unparseable response `"hello"` (no
strategy extracts anything) and the empty original prompt, the parse
returns an *empty* optimized prompt, refuting "optimized_prompt is
neither null nor empty" as an unconditional invariant. -/
theorem c2_counterexample :
    fallback_extract_prompt "hello" = none ∧
    (parse_optimization_onFailure "hello" "" "JSONDecodeError").optimized_prompt = "" := by
  exact ⟨by decide, by decide⟩

/-- **C2 witness.** The amended theorem at the unparseable response
`"hello"` with the non-empty original prompt `"p"`: the original is
preserved and the failure is recorded. -/
theorem c2_witness :
    (parse_optimization_onFailure "hello" "p" "KeyError").optimized_prompt = "p" ∧
    (parse_optimization_onFailure "hello" "p" "KeyError").key_changes =
      ["Optimization parsing failed (KeyError) - using original prompt"] := by
  have h := (c2_optimizer_fallback "hello" "p" "KeyError").2 (fun e he => by
    rw [show fallback_extract_prompt "hello" = none from by decide] at he
    cases he)
  exact ⟨h.1, h.2.trans (by decide)⟩

/-! ## Loop-controller lemmas -/

/-- The `should_continue` flag returned by the loop body. -/
lemma loopStep_snd (cfg : LoopConfig) (o : LoopOracle) (ip : String) (i : Nat)
    (st : LoopState) :
    (loopStep cfg o ip i st).2 = stepShouldContinue cfg o i st := rfl

/-- A stopping pass sets `converged := true` before the caller breaks. -/
lemma loopStep_converged_of_stop (cfg : LoopConfig) (o : LoopOracle) (ip : String)
    (i : Nat) (st : LoopState) (h : stepShouldContinue cfg o i st = false) :
    (loopStep cfg o ip i st).1.result.converged = true := by
  unfold loopStep
  simp [h]

/-- Every pass appends exactly one `LoopIteration`. -/
lemma loopStep_iterations_len (cfg : LoopConfig) (o : LoopOracle) (ip : String)
    (i : Nat) (st : LoopState) :
    (loopStep cfg o ip i st).1.result.iterations.length =
      st.result.iterations.length + 1 := by
  unfold loopStep
  by_cases h0 : i = 0
  · subst h0
    by_cases h : stepShouldContinue cfg o 0 st <;> simp [h]
  · by_cases h : stepShouldContinue cfg o i st <;> simp [h, h0]

/-- `initial_score` is written by the first pass and preserved after. -/
lemma loopStep_initial (cfg : LoopConfig) (o : LoopOracle) (ip : String)
    (i : Nat) (st : LoopState) :
    (loopStep cfg o ip i st).1.result.initial_score =
      if i = 0 then stepScore cfg o i st else st.result.initial_score := by
  unfold loopStep
  by_cases h0 : i = 0
  · subst h0
    by_cases h : stepShouldContinue cfg o 0 st <;> simp [h]
  · by_cases h : stepShouldContinue cfg o i st <;> simp [h, h0]

/-- Best-score tracking never decreases the best score (taking into
account the `i = 0` initialisation to the first composite). -/
lemma loopStep_best_ge (cfg : LoopConfig) (o : LoopOracle) (ip : String)
    (i : Nat) (st : LoopState) :
    (if i = 0 then stepScore cfg o i st else st.best_score) ≤
      (loopStep cfg o ip i st).1.best_score := by
  unfold loopStep
  simp only []
  split_ifs <;> simp only [] <;> linarith

/-- The controller invariant behind the best-prompt guarantee:
the recorded initial score never exceeds the tracked best score. -/
def loopInv (st : LoopState) : Prop :=
  st.result.initial_score ≤ st.best_score

/-- One pass preserves the invariant (and establishes it at `i = 0`). -/
lemma loopStep_inv (cfg : LoopConfig) (o : LoopOracle) (ip : String)
    (i : Nat) (st : LoopState) (h : i ≠ 0 → loopInv st) :
    loopInv (loopStep cfg o ip i st).1 := by
  unfold loopInv
  rw [loopStep_initial]
  have hb := loopStep_best_ge cfg o ip i st
  by_cases h0 : i = 0
  · rw [if_pos h0]
    rw [if_pos h0] at hb
    exact hb
  · rw [if_neg h0]
    rw [if_neg h0] at hb
    exact le_trans (h h0) hb

/-- The iteration loop preserves the invariant from any positive index. -/
lemma runAux_inv (cfg : LoopConfig) (o : LoopOracle) (ip : String) :
    ∀ fuel i st, 1 ≤ i → loopInv st → loopInv (runAux cfg o ip i fuel st) := by
  intro fuel
  induction fuel with
  | zero => intro i st _ h; exact h
  | succ n ih =>
    intro i st hi h
    rw [runAux]
    split
    · exact ih (i + 1) _ (by omega) (loopStep_inv cfg o ip i st (fun _ => h))
    · exact loopStep_inv cfg o ip i st (fun _ => h)

/-- Finalization does not touch the recorded initial score. -/
lemma finalize_initial_eq (cfg : LoopConfig) (st : LoopState) :
    (finalizeLoop cfg st).initial_score = st.result.initial_score := by
  unfold finalizeLoop
  simp only []
  split_ifs <;> simp

/-- Finalization does not touch the converged flag. -/
lemma finalize_converged (cfg : LoopConfig) (st : LoopState) :
    (finalizeLoop cfg st).converged = st.result.converged := by
  unfold finalizeLoop
  simp only []
  split_ifs <;> rfl

/-- Under `use_best_prompt`, the finalized score is at least the
invariant's initial score: either the best score is promoted, or the
last overall score already dominates it. -/
lemma finalize_final_ge (cfg : LoopConfig) (st : LoopState)
    (hb : cfg.use_best_prompt = true) (h : loopInv st) :
    st.result.initial_score ≤ (finalizeLoop cfg st).final_score := by
  unfold finalizeLoop
  unfold loopInv at h
  simp only []
  split_ifs with hcond
  · simpa using h
  · rw [not_and] at hcond
    have hle := hcond hb
    push_neg at hle
    calc st.result.initial_score ≤ st.best_score := h
      _ ≤ _ := hle

/-- Every branch of `_check_convergence` reports "stop" once
`iteration >= max_iterations - 1` (Python integer arithmetic). -/
lemma check_convergence_stop_last (cfg : LoopConfig) (i : Nat) (score prev best : ℚ)
    (regr : Nat) (h : (cfg.max_iterations : Int) - 1 ≤ (i : Int)) :
    (check_convergence cfg i score prev best regr).1 = false := by
  unfold check_convergence
  split_ifs <;> simp_all

/-- The loop body reports "stop" on the last scheduled iteration. -/
lemma stepShouldContinue_last (cfg : LoopConfig) (o : LoopOracle) (i : Nat)
    (st : LoopState) (h : (cfg.max_iterations : Int) - 1 ≤ (i : Int)) :
    stepShouldContinue cfg o i st = false := by
  unfold stepShouldContinue
  exact check_convergence_stop_last cfg i _ _ _ _ h

/-- Any run of the iteration loop that executes at least one pass ends
in a stopping pass, which set `converged`. -/
lemma runAux_converged (cfg : LoopConfig) (o : LoopOracle) (ip : String) :
    ∀ fuel i st, i + fuel = cfg.max_iterations → 1 ≤ fuel →
      (runAux cfg o ip i fuel st).result.converged = true := by
  intro fuel
  induction fuel with
  | zero => intro i st _ h; omega
  | succ n ih =>
    intro i st hsum _
    rw [runAux]
    by_cases hn : n = 0
    · subst hn
      have hstop : stepShouldContinue cfg o i st = false :=
        stepShouldContinue_last cfg o i st (by omega)
      simp only [loopStep_snd, hstop, Bool.false_eq_true, if_false]
      exact loopStep_converged_of_stop cfg o ip i st hstop
    · by_cases hc : stepShouldContinue cfg o i st
      · simp only [loopStep_snd, hc, if_true]
        exact ih (i + 1) _ (by omega) (by omega)
      · rw [Bool.not_eq_true] at hc
        simp only [loopStep_snd, hc, Bool.false_eq_true, if_false]
        exact loopStep_converged_of_stop cfg o ip i st hc

/-! ## Loop-controller claim theorems -/

/-- **C4 (amended).** From the second iteration on (`i ≥ 1`, 0-based),
if the composite score is below the min-score threshold, fewer than two
consecutive regressions are recorded, and the composite differs from the
*previous iteration's analysis overall score* (`stepPrev` — the code
passes `iterations[-1].analysis.overall_score`, not the previous
composite) by less than the convergence threshold without falling below
it, then the loop stops at this iteration with `converged = true`,
appending exactly this iteration's record.  (The original claim compared
against the previous *composite*; that version is refuted separately.) -/
theorem c4_convergence_stop (cfg : LoopConfig) (o : LoopOracle) (ip : String)
    (fuel i : Nat) (st : LoopState)
    (hi : 1 ≤ i)
    (hmin : ¬ cfg.min_score_threshold ≤ stepScore cfg o i st)
    (hreg : st.consecutive_regressions < 2)
    (hconv : |stepScore cfg o i st - stepPrev st| < cfg.convergence_threshold)
    (hge : stepPrev st ≤ stepScore cfg o i st) :
    stepShouldContinue cfg o i st = false ∧
    runAux cfg o ip i (fuel + 1) st = (loopStep cfg o ip i st).1 ∧
    (loopStep cfg o ip i st).1.result.converged = true ∧
    (loopStep cfg o ip i st).1.result.iterations.length =
      st.result.iterations.length + 1 := by
  have hsc : stepShouldContinue cfg o i st = false := by
    unfold stepShouldContinue check_convergence
    rw [if_neg hmin, if_neg (by omega : ¬ 2 ≤ st.consecutive_regressions),
        if_pos ⟨by omega, hconv, hge⟩]
  refine ⟨hsc, ?_, loopStep_converged_of_stop cfg o ip i st hsc,
    loopStep_iterations_len cfg o ip i st⟩
  rw [runAux]
  simp only [loopStep_snd, hsc, Bool.false_eq_true, if_false]

/-- **C4 counterexample.** In the steady run every composite is `60`
while every analysis overall is `50`.  At iteration 2 (0-based index 1)
the two consecutive *composites* are `60` and `60` — difference `0`,
below the threshold `3` and non-negative — the min-score stop has not
fired (`60 < 75`) and no regressions are recorded, yet the loop body
still reports "continue" and the run executes all 5 iterations instead
of stopping at 2: the code compares the composite against the previous
analysis overall (`50`), not the previous composite. -/
theorem c4_counterexample :
    ((runLoop cfgDefault steadyOracle "t" "p").iterations.map
        (fun it => calculate_score cfgDefault it.trace it.analysis)).take 2 = [60, 60] ∧
    |(60 : ℚ) - 60| < cfgDefault.convergence_threshold ∧
    ¬ cfgDefault.min_score_threshold ≤ (60 : ℚ) ∧
    (loopStep cfgDefault steadyOracle "p" 0 (initLoopState "t" "p")).1.consecutive_regressions = 0 ∧
    (loopStep cfgDefault steadyOracle "p" 1
        (loopStep cfgDefault steadyOracle "p" 0 (initLoopState "t" "p")).1).2 = true ∧
    (runLoop cfgDefault steadyOracle "t" "p").total_iterations = 5 ∧
    (runLoop cfgDefault steadyOracle "t" "p").total_iterations ≠ 2 := by decide

/-- **C4 witness.** The amended theorem at a concrete mid-loop state:
previous overall `59`, composite `60`, difference `1 < 3` and
non-decreasing, thresholds clear — the loop stops here with
`converged = true` and one appended iteration. -/
theorem c4_witness :
    stepShouldContinue cfgDefault steadyOracle 1 witState = false ∧
    (loopStep cfgDefault steadyOracle "p" 1 witState).1.result.converged = true ∧
    (loopStep cfgDefault steadyOracle "p" 1 witState).1.result.iterations.length = 2 := by
  have h := c4_convergence_stop cfgDefault steadyOracle "p" 3 1 witState (by norm_num)
    (by decide) (by decide) (by decide) (by decide)
  exact ⟨h.1, h.2.2.1, h.2.2.2⟩

/-- **C5.** For every run with `useBestPrompt = true` that returns
normally (at least one scheduled iteration, so finalization does not
fault) and a non-negative regression threshold, the returned result
never has `finalScore < initialScore − regressionThreshold`; the proof
shows the stronger `initialScore ≤ finalScore`. -/
theorem c5_best_prompt_guarantee (cfg : LoopConfig) (o : LoopOracle) (task p : String)
    (hb : cfg.use_best_prompt = true) (hm : 1 ≤ cfg.max_iterations)
    (hr : 0 ≤ cfg.regression_threshold) :
    (runLoop cfg o task p).initial_score - cfg.regression_threshold ≤
      (runLoop cfg o task p).final_score := by
  obtain ⟨k, hk⟩ : ∃ k, cfg.max_iterations = k + 1 := ⟨cfg.max_iterations - 1, by omega⟩
  unfold runLoop
  rw [hk]
  have hinv : loopInv (runAux cfg o p 0 (k + 1) (initLoopState task p)) := by
    rw [runAux]
    split
    · exact runAux_inv cfg o p k 1 _ le_rfl (loopStep_inv cfg o p 0 _ (fun hh => absurd rfl hh))
    · exact loopStep_inv cfg o p 0 _ (fun hh => absurd rfl hh)
  have h1 := finalize_final_ge cfg _ hb hinv
  have h2 := finalize_initial_eq cfg (runAux cfg o p 0 (k + 1) (initLoopState task p))
  rw [h2]
  linarith

/-- **C5 witness.** The guarantee evaluated on the steady run with the
default configuration: initial 60, final 60, threshold 8. -/
theorem c5_witness :
    cfgDefault.use_best_prompt = true ∧ 1 ≤ cfgDefault.max_iterations ∧
    (0 : ℚ) ≤ cfgDefault.regression_threshold ∧
    (runLoop cfgDefault steadyOracle "t" "p").initial_score -
        cfgDefault.regression_threshold ≤
      (runLoop cfgDefault steadyOracle "t" "p").final_score :=
  ⟨rfl, by decide, by decide,
    c5_best_prompt_guarantee cfgDefault steadyOracle "t" "p" rfl (by decide) (by decide)⟩

/-- **C6.** In every iteration that continues, if the prompt returned by
the optimizer is longer than `len(initialPrompt) × maxPromptGrowth`,
that prompt is discarded: the state's `current_prompt` — the prompt the
next iteration's capture uses — is left unchanged. -/
theorem c6_growth_cap (cfg : LoopConfig) (o : LoopOracle) (ip : String) (i : Nat)
    (st : LoopState)
    (hcont : stepShouldContinue cfg o i st = true)
    (hbig : (ip.length : ℚ) * cfg.max_prompt_growth <
      ((o.optimize i st.current_prompt (stepAnalysis o i st)
        (stepTrace o i st)).optimized_prompt.length : ℚ)) :
    (loopStep cfg o ip i st).1.current_prompt = st.current_prompt := by
  unfold loopStep
  simp [hcont, hbig]

/-- **C6 witness.** With a 1-character initial prompt, growth cap `5`
and an optimizer returning the 9-character `"BIGBIGBIG"`, the first
iteration continues, rejects the oversized prompt and keeps `"p"`. -/
theorem c6_witness :
    stepShouldContinue cfgDefault bigOracle 0 (initLoopState "t" "p") = true ∧
    ((("p" : String).length : ℚ) * cfgDefault.max_prompt_growth <
      ((bigOracle.optimize 0 (initLoopState "t" "p").current_prompt
        (stepAnalysis bigOracle 0 (initLoopState "t" "p"))
        (stepTrace bigOracle 0 (initLoopState "t" "p"))).optimized_prompt.length : ℚ)) ∧
    (loopStep cfgDefault bigOracle "p" 0 (initLoopState "t" "p")).1.current_prompt = "p" := by
  have h1 : stepShouldContinue cfgDefault bigOracle 0 (initLoopState "t" "p") = true := by
    decide
  have h2 : ((("p" : String).length : ℚ) * cfgDefault.max_prompt_growth <
      ((bigOracle.optimize 0 (initLoopState "t" "p").current_prompt
        (stepAnalysis bigOracle 0 (initLoopState "t" "p"))
        (stepTrace bigOracle 0 (initLoopState "t" "p"))).optimized_prompt.length : ℚ)) := by
    decide
  exact ⟨h1, h2, c6_growth_cap cfgDefault bigOracle "p" 0 (initLoopState "t" "p") h1 h2⟩

/-- **C9.** Every completed run with at least one scheduled iteration
returns `converged = true`: reaching `max_iterations − 1` is itself a
stop condition of `_check_convergence`, and every stop path sets the
flag before breaking.  (With `max_iterations = 0` the Python loop never
runs and — under `use_best_prompt` — finalization faults, so the
hypothesis matches every run that returns normally.) -/
theorem c9_always_converged (cfg : LoopConfig) (o : LoopOracle) (task p : String)
    (hm : 1 ≤ cfg.max_iterations) :
    (runLoop cfg o task p).converged = true := by
  unfold runLoop
  rw [finalize_converged]
  exact runAux_converged cfg o p cfg.max_iterations 0 (initLoopState task p) (by omega) hm

/-- **C9 witness.** The steady run under the default configuration stops
only by exhausting `max_iterations`, and still reports `converged`. -/
theorem c9_witness :
    1 ≤ cfgDefault.max_iterations ∧
    (runLoop cfgDefault steadyOracle "t" "p").converged = true :=
  ⟨by decide, c9_always_converged cfgDefault steadyOracle "t" "p" (by decide)⟩

/-- **C10.** A concrete run with `useBestPrompt = true` in which the
prompt `"BIGBIGBIG"` returned by the optimizer at iteration 2 exceeds
the growth cap (`9 > 1 × 5`), is therefore never used for a capture
(the captured system prompts are `p, q, q`), yet is recorded as best
prompt — that iteration's composite `60` beats the previous best `40`
and best tracking prefers the raw `optimization.optimized_prompt` —
and is returned as `final_prompt` with `final_score = 60`: the growth
cap bounds only the next `current_prompt`, not the returned prompt. -/
theorem c10_growth_cap_bypass :
    ((("p" : String).length : ℚ) * cfgThree.max_prompt_growth <
      (("BIGBIGBIG" : String).length : ℚ)) ∧
    cfgThree.use_best_prompt = true ∧
    (runLoop cfgThree growthOracle "t" "p").final_prompt = "BIGBIGBIG" ∧
    (runLoop cfgThree growthOracle "t" "p").final_score = 60 ∧
    ((runLoop cfgThree growthOracle "t" "p").iterations.map
      (fun it => it.trace.system_prompt)) = ["p", "q", "q"] := by decide

/-! ## Capture lemmas and claim theorems -/

/-- A `filterMap` over content blocks is empty exactly when no block
satisfies the corresponding predicate. -/
lemma filterMapAnyAux (l : List ContentBlock) (f : ContentBlock → Option (String × String × String))
    (g : ContentBlock → Bool) (h : ∀ b, (f b).isSome = g b) :
    (l.filterMap f).isEmpty = ! l.any g := by
  induction l with
  | nil => rfl
  | cons b t ih =>
    have hb := h b
    cases hfb : f b with
    | none =>
      rw [hfb] at hb
      simp [List.filterMap_cons, hfb, List.any_cons, ← hb, ih]
    | some v =>
      rw [hfb] at hb
      simp [List.filterMap_cons, hfb, List.any_cons, ← hb]

/-- The tool-use bin is empty exactly when the response contains no
`tool_use` block. -/
lemma responseTools_isEmpty (resp : ModelResponse) :
    (responseTools resp).isEmpty = ! hasToolUse resp := by
  unfold responseTools hasToolUse
  apply filterMapAnyAux
  intro b
  cases b <;> rfl

/-- `_execute_tool` touches only `tool_calls` and `thinking_blocks`. -/
lemma execute_tool_preserves (executor : Option (Nat → String → String → Except String String))
    (ci turn : Nat) (bid bname binp : String) (tr : ReasoningTrace) :
    ((execute_tool executor ci turn bid bname binp tr).2.success = tr.success ∧
     (execute_tool executor ci turn bid bname binp tr).2.total_turns = tr.total_turns) := by
  unfold execute_tool
  exact ⟨rfl, rfl⟩

/-- Executing a turn's tool calls leaves `success` and `total_turns`
unchanged. -/
lemma executeTools_preserves (executor : Option (Nat → String → String → Except String String))
    (turn : Nat) :
    ∀ ls ci tr, ((executeTools executor turn ls ci tr).1.success = tr.success ∧
      (executeTools executor turn ls ci tr).1.total_turns = tr.total_turns) := by
  intro ls
  induction ls with
  | nil => intro ci tr; exact ⟨rfl, rfl⟩
  | cons hd tl ih =>
    intro ci tr
    obtain ⟨b1, b2, b3⟩ := hd
    have h1 := execute_tool_preserves executor ci turn b1 b2 b3 tr
    have h2 := ih (ci + 1) (execute_tool executor ci turn b1 b2 b3 tr).2
    rw [executeTools]
    exact ⟨h2.1.trans h1.1, h2.2.trans h1.2⟩

/-- If every scheduled turn's response contains a tool call, the capture
loop never breaks: it returns with `turn = max_turns`, an untouched
success flag, and `total_turns` equal to the number of executed turns. -/
lemma captureGo_exhaust (o : CaptureOracle) :
    ∀ fuel turn ci tr,
      (∀ t, turn ≤ t → t < turn + fuel → hasToolUse (o.respond t) = true) →
      (captureGo o fuel turn ci tr).2 = turn + fuel ∧
      (captureGo o fuel turn ci tr).1.success = tr.success ∧
      (captureGo o fuel turn ci tr).1.total_turns =
        (if fuel = 0 then tr.total_turns else turn + fuel) := by
  intro fuel
  induction fuel with
  | zero => intro turn ci tr _; exact ⟨rfl, rfl, rfl⟩
  | succ n ih =>
    intro turn ci tr h
    have htool : hasToolUse (o.respond turn) = true := h turn le_rfl (by omega)
    have hne : (responseTools (o.respond turn)).isEmpty = false := by
      rw [responseTools_isEmpty, htool]
      rfl
    have hcond : ∀ t, turn + 1 ≤ t → t < (turn + 1) + n → hasToolUse (o.respond t) = true :=
      fun t h1 h2 => h t (by omega) (by omega)
    rw [captureGo]
    simp only [process_response, hne, Bool.false_eq_true, if_false]
    have hrec := ih (turn + 1)
      (executeTools o.executor turn (responseTools (o.respond turn)) ci
        { tr with
            thinking_blocks := tr.thinking_blocks ++ responseThinking (o.respond turn) turn
            total_tokens := tr.total_tokens + (o.respond turn).input_tokens +
              (o.respond turn).output_tokens }).2
      { (executeTools o.executor turn (responseTools (o.respond turn)) ci
          { tr with
              thinking_blocks := tr.thinking_blocks ++ responseThinking (o.respond turn) turn
              total_tokens := tr.total_tokens + (o.respond turn).input_tokens +
                (o.respond turn).output_tokens }).1 with total_turns := turn + 1 }
      hcond
    have hpres := executeTools_preserves o.executor turn
      (responseTools (o.respond turn)) ci
      { tr with
          thinking_blocks := tr.thinking_blocks ++ responseThinking (o.respond turn) turn
          total_tokens := tr.total_tokens + (o.respond turn).input_tokens +
            (o.respond turn).output_tokens }
    refine ⟨by rw [hrec.1]; omega, ?_, ?_⟩
    · rw [hrec.2.1]
      exact hpres.1
    · rw [hrec.2.2]
      by_cases hn : n = 0
      · subst hn
        simp
      · rw [if_neg hn, if_neg (by omega : ¬ n + 1 = 0)]
        omega


/-- **C7.** For every capture run whose every scheduled turn yields at
least one tool-use block (so the loop exits only by exhausting
`maxTurns`), the returned trace has `success = false`, an error message
containing `"maximum turns"`, and `total_turns = maxTurns`. -/
theorem c7_max_turns_exhaustion (o : CaptureOracle) (sid task sp : String) (max_turns : Nat)
    (h : ∀ t, t < max_turns → hasToolUse (o.respond t) = true) :
    (capture_run o sid task sp max_turns).success = some false ∧
    (capture_run o sid task sp max_turns).total_turns = max_turns ∧
    ∃ pre post, (capture_run o sid task sp max_turns).error =
      some (pre ++ "maximum turns" ++ post) := by
  unfold capture_run
  simp only []
  have hg := captureGo_exhaust o max_turns 0 0
    { session_id := sid, task := task, system_prompt := sp }
    (fun t h1 h2 => h t (by omega))
  have hsucc : (captureGo o max_turns 0 0
      { session_id := sid, task := task, system_prompt := sp }).1.success = none := hg.2.1
  rw [hg.1, hsucc]
  rw [if_pos (⟨by omega, by decide⟩ :
    max_turns ≤ 0 + max_turns ∧ ¬ pyTruthy none = true)]
  refine ⟨rfl, ?_, "Reached ", " (" ++ toString max_turns ++ ") without completion", ?_⟩
  · show (captureGo o max_turns 0 0
      { session_id := sid, task := task, system_prompt := sp }).1.total_turns = max_turns
    rw [hg.2.2]
    by_cases hz : max_turns = 0
    · subst hz; rfl
    · rw [if_neg hz]; omega
  · show some ("Reached maximum turns (" ++ toString max_turns ++ ") without completion") =
      some ("Reached " ++ "maximum turns" ++ (" (" ++ toString max_turns ++ ") without completion"))
    congr 1

/-- **C7 witness.** A provider that always asks for the `search` tool,
with `maxTurns = 3`: the trace fails with the max-turns error after
exactly 3 turns. -/
theorem c7_witness :
    (∀ t, t < 3 → hasToolUse (loopingCapture.respond t) = true) ∧
    (capture_run loopingCapture "sid" "task" "sys" 3).success = some false ∧
    (capture_run loopingCapture "sid" "task" "sys" 3).total_turns = 3 ∧
    ∃ pre post, (capture_run loopingCapture "sid" "task" "sys" 3).error =
      some (pre ++ "maximum turns" ++ post) := by
  have h : ∀ t, t < 3 → hasToolUse (loopingCapture.respond t) = true := fun t _ => rfl
  have hc := c7_max_turns_exhaustion loopingCapture "sid" "task" "sys" 3 h
  exact ⟨h, hc.1, hc.2.1, hc.2.2⟩

/-- **C8.** Every executed tool call appends exactly one `ToolCall`
whose success flag is a boolean (`some true` or `some false`, never
unset), whose `error` is set iff `success = false`; and a raised
executor exception `e` is captured — never propagated (the embedding is
total) — as result `"Error: " ++ e` returned to the model. -/
theorem c8_tool_call_flags (executor : Option (Nat → String → String → Except String String))
    (ci turn : Nat) (bid bname binp : String) (tr : ReasoningTrace) :
    ∃ tc : ToolCall,
      (execute_tool executor ci turn bid bname binp tr).2.tool_calls =
        tr.tool_calls ++ [tc] ∧
      (tc.success = some true ∨ tc.success = some false) ∧
      (tc.error ≠ none ↔ tc.success = some false) ∧
      (∀ ex e, executor = some ex → ex ci bname binp = Except.error e →
        tc.result = some ("Error: " ++ e) ∧
        (execute_tool executor ci turn bid bname binp tr).1 = "Error: " ++ e ∧
        tc.error = some e) := by
  unfold execute_tool
  rcases executor with - | ex
  · exact ⟨{ id := bid, name := bname, input := binp, turn_index := turn,
             result := some ("[Mock result for " ++ bname ++ "]"),
             success := some true, error := none },
           rfl, Or.inl rfl, by simp, fun ex e hex => by cases hex⟩
  · cases hr : ex ci bname binp with
    | ok r =>
      simp only []
      rw [hr]
      refine ⟨{ id := bid, name := bname, input := binp, turn_index := turn,
                result := some r, success := some true, error := none },
              rfl, Or.inl rfl, by simp, ?_⟩
      intro ex2 e hex2 herr
      obtain rfl : ex = ex2 := by injection hex2
      rw [hr] at herr
      cases herr
    | error e =>
      simp only []
      rw [hr]
      refine ⟨{ id := bid, name := bname, input := binp, turn_index := turn,
                result := some ("Error: " ++ e), success := some false, error := some e },
              rfl, Or.inr rfl, by simp, ?_⟩
      intro ex2 e2 hex2 herr
      obtain rfl : ex = ex2 := by injection hex2
      rw [hr] at herr
      obtain rfl : e = e2 := by injection herr
      exact ⟨rfl, rfl, rfl⟩


/-- **C8 witness.** An executor that raises `"boom"`: the recorded tool
call has `success = some false`, `error = some "boom"`, and the result
string `"Error: boom"` is returned to the model. -/
theorem c8_witness :
    ∃ tc : ToolCall,
      (execute_tool (some raisingExecutor) 0 0 "id1" "search" "x"
        { session_id := "s", task := "t", system_prompt := "sp" }).2.tool_calls = [tc] ∧
      tc.success = some false ∧
      tc.error = some "boom" ∧
      tc.result = some ("Error: " ++ "boom") ∧
      (execute_tool (some raisingExecutor) 0 0 "id1" "search" "x"
        { session_id := "s", task := "t", system_prompt := "sp" }).1 = "Error: " ++ "boom" := by
  obtain ⟨tc, h1, h2, h3, h4⟩ := c8_tool_call_flags (some raisingExecutor) 0 0 "id1" "search" "x"
    { session_id := "s", task := "t", system_prompt := "sp" }
  have h5 := h4 raisingExecutor "boom" rfl rfl
  refine ⟨tc, ?_, ?_, h5.2.2, h5.1, h5.2.1⟩
  · simpa using h1
  · exact h3.mp (by rw [h5.2.2]; simp)

end RTO